import Mathlib

/-!
Verification development for the WebLens zero-code browser-test engine
(backend: `models.py`, `interpreter.py`, `resolution.py`,
`structural_resolver.py`, `failures.py`, `main.py`).

The Python code is shallowly embedded: pure validation and decision logic
becomes executable Lean functions over explicit data; DOM state and the
browser driver are abstracted as oracle records whose calls return
`Except`-style outcomes, mirroring the exception behaviour of the source.
String literals containing curly braces use `\x7b` / `\x7d` escapes.
-/

/-! ## Basic string utilities (substring search, mirroring JS `includes` and
Python `in`) -/

/-- Boolean substring test on character lists: `containsSub pat text` is true
iff `pat` occurs contiguously inside `text` (JS `text.includes(pat)`,
Python `pat in text`). -/
def containsSub (pat : List Char) : List Char → Bool
  | [] => pat.isEmpty
  | c :: rest => List.isPrefixOf pat (c :: rest) || containsSub pat rest

/-- String-level wrapper for `containsSub`. -/
def strIncludes (text pat : String) : Bool :=
  containsSub pat.data text.data

/-- Character-list implementation of whitespace stripping from both ends
(Python `str.strip()`, JS `trim()`), kept structural so that concrete
inputs evaluate inside the kernel. -/
def trimChars (l : List Char) : List Char :=
  ((l.dropWhile Char.isWhitespace).reverse.dropWhile Char.isWhitespace).reverse

/-- String wrapper for `trimChars`. -/
def pyStrip (s : String) : String :=
  String.mk (trimChars s.data)

/-- Character-wise lower-casing (Python `str.lower()`, JS `toLowerCase()`). -/
def lowerStr (s : String) : String :=
  String.mk (s.data.map Char.toLower)

/-- Splitting into maximal non-whitespace runs (JS `split(/\s+/)` up to empty
strings, which every consumer filters away by a length bound). -/
def wordsAux (cur : List Char) : List Char → List String
  | [] => if cur.isEmpty then [] else [String.mk cur.reverse]
  | c :: rest =>
    if c.isWhitespace then
      if cur.isEmpty then wordsAux [] rest
      else String.mk cur.reverse :: wordsAux [] rest
    else wordsAux (c :: cur) rest

/-- The whitespace-separated words of a string. -/
def wordsOf (s : String) : List String :=
  wordsAux [] s.data

/-! ## Canonical failure taxonomy (`failures.py`)

Each Python failure class carries an `owner` and a `determinism`; the class
itself is modelled by a `FailureKind` tag so that distinctness of failure
categories (e.g. capability mismatch vs element-not-found) is expressible. -/

/-- Failure owner axis (`failures.py`, `FailureOwner`). -/
inductive FailureOwner
  | USER
  | APP
  | ENGINE
  | SYSTEM
deriving DecidableEq, Repr

/-- Failure determinism axis (`failures.py`, `FailureDeterminism`). -/
inductive FailureDeterminism
  | CERTAIN
  | HEURISTIC
  | UNKNOWN
deriving DecidableEq, Repr

/-- Tag identifying the concrete Python failure class raised. -/
inductive FailureKind
  | variableMissing
  | intentCapabilityMismatch
  | elementNotFoundInDOM
  | resolutionAmbiguity
  | browserEngineError
deriving DecidableEq, Repr

/-- Structured failure value: the fields of `WebLensFailure` that the claims
inspect (class identity, owner, determinism, plus the key/count evidence). -/
structure Failure where
  kind : FailureKind
  owner : FailureOwner
  determinism : FailureDeterminism
  missingKey : String := ""
  candidateCount : Nat := 0
deriving DecidableEq, Repr

/-- Constructor mirroring `VariableMissingError.__init__`: owner USER,
determinism CERTAIN, carrying the missing key. -/
def variableMissingError (key : String) : Failure :=
  { kind := .variableMissing
    owner := .USER
    determinism := .CERTAIN
    missingKey := key }

/-- Constructor mirroring `IntentCapabilityMismatchError.__init__`: owner USER,
determinism CERTAIN. -/
def intentCapabilityMismatchError : Failure :=
  { kind := .intentCapabilityMismatch
    owner := .USER
    determinism := .CERTAIN }

/-- Constructor mirroring `ElementNotFoundInDOMError.__init__` (the
`ElementMissingError` alias): owner APP, determinism CERTAIN. -/
def elementNotFoundInDOMError : Failure :=
  { kind := .elementNotFoundInDOM
    owner := .APP
    determinism := .CERTAIN }

/-- Constructor mirroring `ResolutionAmbiguityError.__init__` (reached through
the `ElementAmbiguousError` legacy alias): owner ENGINE, determinism
HEURISTIC, carrying the candidate count. -/
def resolutionAmbiguityError (count : Nat) : Failure :=
  { kind := .resolutionAmbiguity
    owner := .ENGINE
    determinism := .HEURISTIC
    candidateCount := count }

/-! ## Element references and conditions (`models.py`) -/

/-- Semantic element reference (`models.py`, class `ElementRef`). Pydantic
defaults are reproduced as Lean default field values; in particular
`confidence` defaults to the string "high". `metadata` and `context` are
modelled as association lists. -/
structure ElementRef where
  role : String
  name : String
  nameSource : String := "native"
  confidence : String := "high"
  context : List (String × String) := []
  intentType : String := "semantic"
  systemRole : Option String := none
  verificationRequired : Bool := false
  metadata : List (String × String) := []
deriving DecidableEq, Repr

/-- Saved-value reference (`models.py`, class `SavedValueRef`). -/
structure SavedValueRef where
  key : String
  label : String := ""
deriving DecidableEq, Repr

/-- Condition kinds (`models.py`, enum `ConditionKind`). -/
inductive ConditionKind
  | elementVisible
  | elementNotVisible
  | pageTitleEquals
  | urlContains
  | savedValueExists
  | savedValueEquals
  | textMatch
deriving DecidableEq, Repr

/-- Semantic condition (`models.py`, class `Condition`): one kind plus the
optional per-kind parameter fields. -/
structure Condition where
  kind : ConditionKind
  element : Option ElementRef := none
  expectedTitle : Option String := none
  expectedFragment : Option String := none
  valueRef : Option SavedValueRef := none
  expectedText : Option String := none
  matchMode : Option String := none
  value : Option String := none
deriving DecidableEq, Repr

/-! ## Block graph (`models.py`) -/

/-- File reference (`models.py`, class `FileRef`); only the id matters here. -/
structure FileRef where
  id : String
  name : String := ""
deriving DecidableEq, Repr

/-- Save-as configuration (`models.py`, class `SaveAs`). -/
structure SaveAs where
  key : String
  label : String := ""
deriving DecidableEq, Repr

/-- Type-specific payload of a block, one constructor per pydantic block class
in `models.py`. Fields irrelevant to validation and the claims (timeouts of
non-checked blocks, booleans such as `clear_first`) are kept only where a
validator or claim reads them. -/
inductive BlockPayload
  | openPage (url : String)
  | clickElement (element : Option ElementRef)
  | enterText (element : Option ElementRef) (text : String)
  | waitUntilVisible (element : Option ElementRef) (timeoutSeconds : Nat)
  | assertVisible (element : ElementRef)
  | ifCondition (condition : Condition) (thenBlocks elseBlocks : List String)
  | repeatUntil (condition : Condition) (bodyBlocks : List String)
      (maxIterations : Nat)
  | delay
  | refreshPage
  | waitForPageLoad
  | selectOption (element : Option ElementRef) (optionText : String)
  | uploadFile (element : Option ElementRef) (file : Option FileRef)
  | verifyText (element : Option ElementRef) (matchValue : String)
  | scrollToElement (element : Option ElementRef)
  | saveText (element : Option ElementRef) (saveAs : SaveAs)
  | savePageContent (saveAs : SaveAs)
  | verifyPageTitle (title : String)
  | verifyUrl (urlPart : String)
  | verifyElementEnabled (element : Option ElementRef)
  | useSavedValue (element : Option ElementRef) (valueRef : Option SavedValueRef)
  | verifyNetworkRequest
  | verifyPerformance
  | submitForm (element : Option ElementRef)
  | confirmDialog
  | dismissDialog
  | activatePrimaryAction
  | submitCurrentInput (element : Option ElementRef)
  | verifyPageContent (matchValue : String)
  | getCookies
  | getLocalStorage
  | getSessionStorage
  | observeNetwork
  | switchTab
  | visualVerify (element : Option ElementRef)
deriving DecidableEq, Repr

/-- A block: shared `BaseBlock` fields plus the type-specific payload. -/
structure Block where
  id : String
  nextBlock : Option String := none
  payload : BlockPayload
deriving DecidableEq, Repr

/-- Complete flow graph (`models.py`, class `FlowGraph`). -/
structure FlowGraph where
  name : String := ""
  entryBlock : String
  blocks : List Block
deriving DecidableEq, Repr

/-- Flow state (`models.py`, enum `FlowState`). -/
inductive FlowState
  | draft
  | runnable
deriving DecidableEq, Repr

/-! ## Placeholder detection (`models.py`, `validate_completeness`, regex
`\x7b\x7b[^\x7d]+\x7d\x7d`) -/

/-- Scanner for the tail of a candidate placeholder: having consumed
`\x7b\x7b` and at least one body character, succeed exactly when a maximal
run of non-`\x7d` characters is followed by `\x7d\x7d`. -/
def scanVarBody : List Char → Bool
  | '}' :: '}' :: _ => true
  | '}' :: _ => false
  | [] => false
  | _ :: rest => scanVarBody rest

/-- Does the regex `\x7b\x7b[^\x7d]+\x7d\x7d` match at the head of the
character list? -/
def matchVarAt : List Char → Bool
  | '{' :: '{' :: c :: rest => if c = '}' then false else scanVarBody rest
  | _ => false

/-- Regex search: does the placeholder pattern match at any position? -/
def containsVarAux : List Char → Bool
  | [] => false
  | c :: rest => matchVarAt (c :: rest) || containsVarAux rest

/-- Mirrors `contains_variable` in `validate_completeness`:
`bool(text and variable_pattern.search(text))`, with `None` and the empty
string falsy. -/
def contains_variable : Option String → Bool
  | none => false
  | some s => containsVarAux s.data

/-! ## Reference validation (`models.py`, `FlowGraph.validate_references`) -/

/-- The set (list) of block ids of a flow. -/
def blockIds (f : FlowGraph) : List String :=
  f.blocks.map (fun b => b.id)

/-- The `then_blocks` list of a block (`getattr(b, "then_blocks", [])`). -/
def thenBlocksOf (b : Block) : List String :=
  match b.payload with
  | .ifCondition _ t _ => t
  | _ => []

/-- The `else_blocks` list of a block (`getattr(b, "else_blocks", [])`). -/
def elseBlocksOf (b : Block) : List String :=
  match b.payload with
  | .ifCondition _ _ e => e
  | _ => []

/-- The `body_blocks` list of a block (`getattr(b, "body_blocks", [])`). -/
def bodyBlocksOf (b : Block) : List String :=
  match b.payload with
  | .repeatUntil _ body _ => body
  | _ => []

/-- Reference errors contributed by one block inside
`FlowGraph.validate_references`: dangling `next_block` (skipped when falsy,
i.e. empty), dangling `then_blocks` / `else_blocks` ids, dangling
`body_blocks` ids. -/
def blockRefErrors (ids : List String) (b : Block) : List String :=
  (match b.nextBlock with
   | none => []
   | some n =>
     if n = "" then []
     else if n ∈ ids then []
     else ["Block '" ++ b.id ++ "' references non-existent next_block '" ++ n ++ "'"])
  ++ (thenBlocksOf b).flatMap (fun tid =>
       if tid ∈ ids then []
       else ["Block '" ++ b.id ++ "' references non-existent block '" ++ tid ++ "' in then_blocks"])
  ++ (elseBlocksOf b).flatMap (fun eid =>
       if eid ∈ ids then []
       else ["Block '" ++ b.id ++ "' references non-existent block '" ++ eid ++ "' in else_blocks"])
  ++ (bodyBlocksOf b).flatMap (fun bid =>
       if bid ∈ ids then []
       else ["Block '" ++ b.id ++ "' references non-existent block '" ++ bid ++ "' in body_blocks"])

/-- Mirrors `FlowGraph.validate_references`: the entry-block existence check
followed by the per-block reference checks. -/
def validate_references (f : FlowGraph) : List String :=
  (if f.entryBlock ∈ blockIds f then []
   else ["Entry block '" ++ f.entryBlock ++ "' does not exist"])
  ++ f.blocks.flatMap (blockRefErrors (blockIds f))

/-! ## Root-entry check (`main.py`, execution-gate loop before
`start_background_execution`) -/

/-- Does block `b` reference `entry` as `next_block`, or in its
`then_blocks` / `else_blocks` / `body_blocks` lists? -/
def referencesAsChild (entry : String) (b : Block) : Bool :=
  b.nextBlock = some entry
    || (thenBlocksOf b).contains entry
    || (elseBlocksOf b).contains entry
    || (bodyBlocksOf b).contains entry

/-- Mirrors the `is_root` loop of the run endpoint in `main.py`: the entry
block must not be referenced as a child of any block. -/
def entryIsRoot (f : FlowGraph) : Bool :=
  f.blocks.all (fun b => !(referencesAsChild f.entryBlock b))

/-! ## Completeness validation (`models.py`, `FlowGraph.validate_completeness`) -/

/-- The string value of a condition kind (`models.py`, `ConditionKind`). -/
def conditionKindValue : ConditionKind → String
  | .elementVisible => "element_visible"
  | .elementNotVisible => "element_not_visible"
  | .pageTitleEquals => "page_title_equals"
  | .urlContains => "url_contains"
  | .savedValueExists => "saved_value_exists"
  | .savedValueEquals => "saved_value_equals"
  | .textMatch => "text_match"

/-- The condition kind value with underscores replaced by spaces
(`block.condition.kind.replace('_', ' ')`). -/
def conditionKindSpaced (k : ConditionKind) : String :=
  String.mk ((conditionKindValue k).data.map (fun c => if c = '_' then ' ' else c))

/-- User-friendly block label prefix: `block.type.replace('_', ' ').title()`. -/
def typeTitle : BlockPayload → String
  | .openPage _ => "Open Page"
  | .clickElement _ => "Click Element"
  | .enterText _ _ => "Enter Text"
  | .waitUntilVisible _ _ => "Wait Until Visible"
  | .assertVisible _ => "Assert Visible"
  | .ifCondition _ _ _ => "If Condition"
  | .repeatUntil _ _ _ => "Repeat Until"
  | .delay => "Delay"
  | .refreshPage => "Refresh Page"
  | .waitForPageLoad => "Wait For Page Load"
  | .selectOption _ _ => "Select Option"
  | .uploadFile _ _ => "Upload File"
  | .verifyText _ _ => "Verify Text"
  | .scrollToElement _ => "Scroll To Element"
  | .saveText _ _ => "Save Text"
  | .savePageContent _ => "Save Page Content"
  | .verifyPageTitle _ => "Verify Page Title"
  | .verifyUrl _ => "Verify Url"
  | .verifyElementEnabled _ => "Verify Element Enabled"
  | .useSavedValue _ _ => "Use Saved Value"
  | .verifyNetworkRequest => "Verify Network Request"
  | .verifyPerformance => "Verify Performance"
  | .submitForm _ => "Submit Form"
  | .confirmDialog => "Confirm Dialog"
  | .dismissDialog => "Dismiss Dialog"
  | .activatePrimaryAction => "Activate Primary Action"
  | .submitCurrentInput _ => "Submit Current Input"
  | .verifyPageContent _ => "Verify Page Content"
  | .getCookies => "Get Cookies"
  | .getLocalStorage => "Get Local Storage"
  | .getSessionStorage => "Get Session Storage"
  | .observeNetwork => "Observe Network"
  | .switchTab => "Switch Tab"
  | .visualVerify _ => "Visual Verify"

/-- Helper for the recurring "Requires a target element" style checks on an
optional element field. -/
def requireElement (label : String) (msg : String) (el : Option ElementRef) :
    List String :=
  match el with
  | none => [label ++ ": " ++ msg]
  | some _ => []

/-- First phase of `validate_completeness`: the per-block required-field
checks. Checks that can never fire for pydantic-constructed blocks (required
sub-models are always truthy; `not block.text and block.text != ""` is
unsatisfiable) are omitted as dead code. -/
def completenessFieldErrors (b : Block) : List String :=
  let label := typeTitle b.payload ++ " Block"
  match b.payload with
  | .openPage url =>
      if pyStrip url = "" then [label ++ ": Requires a URL"] else []
  | .clickElement el => requireElement label ("Requires a target element") el
  | .enterText el _ => requireElement label ("Requires a target element") el
  | .waitUntilVisible el _ =>
      requireElement label ("Requires a target element") el
  | .assertVisible _ => []
  | .selectOption el opt =>
      requireElement label ("Requires a dropdown element") el
        ++ (if opt = "" then [label ++ ": Requires option text"] else [])
  | .uploadFile el file =>
      requireElement label ("Requires a file input element") el
        ++ (match file with
            | none => [label ++ ": Requires a file selection"]
            | some _ => [])
  | .verifyText el v =>
      requireElement label ("Requires a target element") el
        ++ (if v = "" then [label ++ ": Requires expected text value"] else [])
  | .scrollToElement el => requireElement label ("Requires a target element") el
  | .saveText el sa =>
      requireElement label ("Requires a target element") el
        ++ (if sa.key = "" then [label ++ ": Requires a variable name"] else [])
  | .verifyPageTitle t =>
      if t = "" then [label ++ ": Requires expected title"] else []
  | .verifyUrl u =>
      if u = "" then [label ++ ": Requires expected URL fragment"] else []
  | .verifyElementEnabled el =>
      requireElement label ("Requires a target element") el
  | .useSavedValue el vref =>
      (match vref with
       | none => [label ++ ": Requires a source value"]
       | some r => if r.key = "" then [label ++ ": Requires a source value"] else [])
        ++ requireElement label ("Requires a target element") el
  | .submitForm el => requireElement label ("Requires a target element") el
  | .submitCurrentInput _ => []
  | .verifyPageContent v =>
      if v = "" then [label ++ ": Requires text to search for"] else []
  | .ifCondition cond _ _ =>
      if cond.kind ∈ [ConditionKind.elementVisible, ConditionKind.elementNotVisible,
          ConditionKind.textMatch] ∧ cond.element = none then
        [label ++ ": Requires an element for '" ++ conditionKindSpaced cond.kind ++ "'"]
      else []
  | .repeatUntil cond _ _ =>
      if cond.kind ∈ [ConditionKind.elementVisible, ConditionKind.elementNotVisible,
          ConditionKind.textMatch] ∧ cond.element = none then
        [label ++ ": Repeat Until requires an element for '"
          ++ conditionKindValue cond.kind ++ "'"]
      else []
  | _ => []

/-- Second phase of `validate_completeness`: the saved-value prohibition.
`open_page` URLs are explicitly relaxed (the check is commented out in the
source); control-flow condition value fields are checked for both
`if_condition` and `repeat_until`; element names are checked only for the
twelve block types in the `element_blocks` tuple. -/
def placeholderErrors (b : Block) : List String :=
  let label := "Block '" ++ b.id ++ "'"
  let condMsg := label ++ ": Saved values cannot be used in control flow conditions"
  let elemMsg := label ++ ": Saved values cannot be used for element selection"
  let condErrs := fun (cond : Condition) =>
    (if contains_variable cond.value then [condMsg] else [])
      ++ (if contains_variable cond.expectedTitle then [condMsg] else [])
      ++ (if contains_variable cond.expectedFragment then [condMsg] else [])
      ++ (if contains_variable cond.expectedText then [condMsg] else [])
  let elemNameErr := fun (el : Option ElementRef) =>
    match el with
    | some e => if contains_variable (some e.name) then [elemMsg] else []
    | none => []
  match b.payload with
  | .openPage _ => []
  | .ifCondition cond _ _ => condErrs cond
  | .repeatUntil cond _ _ => condErrs cond
  | .clickElement el => elemNameErr el
  | .enterText el _ => elemNameErr el
  | .waitUntilVisible el _ => elemNameErr el
  | .assertVisible el => elemNameErr (some el)
  | .selectOption el _ => elemNameErr el
  | .uploadFile el _ => elemNameErr el
  | .verifyText el _ => elemNameErr el
  | .scrollToElement el => elemNameErr el
  | .saveText el _ => elemNameErr el
  | .verifyElementEnabled el => elemNameErr el
  | .submitForm el => elemNameErr el
  | .submitCurrentInput el => elemNameErr el
  | _ => []

/-- Mirrors `FlowGraph.validate_completeness`: the field-check loop followed
by the saved-value prohibition loop. -/
def validate_completeness (f : FlowGraph) : List String :=
  f.blocks.flatMap completenessFieldErrors ++ f.blocks.flatMap placeholderErrors

/-- Mirrors `FlowGraph.get_state`: RUNNABLE iff `validate_completeness` is
empty. -/
def get_state (f : FlowGraph) : FlowState :=
  if validate_completeness f = [] then FlowState.runnable else FlowState.draft

/-! ## Variable interpolation (`interpreter.py`, `BlockInterpreter._interpolate`)

The placeholder scan mirrors `re.findall` with the non-greedy pattern
`\x7b\x7b(.*?)\x7d\x7d`: at a `\x7b\x7b`, the capture runs to the first
`\x7d\x7d` (dot does not cross a newline); scanning is non-overlapping and
resumes after the closing braces; on a failed match the scan advances one
character. -/

/-- Split off the shortest body terminated by `\x7d\x7d`: returns the body and
the remainder after the closing braces, or `none` when no `\x7d\x7d` occurs
before a newline or the end of input. -/
def splitAtClose : List Char → Option (List Char × List Char)
  | [] => none
  | c :: rest =>
    if c = '}' ∧ rest.head? = some '}' then some ([], rest.tail)
    else if c = '\n' then none
    else
      match splitAtClose rest with
      | some (body, after) => some (c :: body, after)
      | none => none

/-- A successful `splitAtClose` consumes at least the two closing braces. -/
theorem splitAtClose_len (l : List Char) :
    ∀ b a, splitAtClose l = some (b, a) → a.length + 2 ≤ l.length := by
  induction l with
  | nil => intro b a h; simp [splitAtClose] at h
  | cons c rest ih =>
    intro b a h
    rw [splitAtClose] at h
    split at h
    · rename_i hc
      obtain ⟨-, hh⟩ := hc
      cases rest with
      | nil => simp at hh
      | cons r t =>
        simp at h
        obtain ⟨-, ha⟩ := h
        subst ha
        simp
    · split at h
      · exact absurd h (by simp)
      · cases hs : splitAtClose rest with
        | none => rw [hs] at h; simp at h
        | some p =>
          obtain ⟨b', a'⟩ := p
          rw [hs] at h
          simp at h
          obtain ⟨-, ha⟩ := h
          subst ha
          have := ih b' a' hs
          simp
          omega

/-- Fuel-driven scan for `re.findall` of the non-greedy placeholder pattern:
each step either emits the shortest capture and resumes after its closing
braces, or advances one character. The fuel is structural recursion
ballast; every step strictly shrinks the list (by `splitAtClose_len` in the
capture case), so any fuel of at least the list length is exact. -/
def findPlaceholdersFuel : Nat → List Char → List (List Char)
  | 0, _ => []
  | _ + 1, [] => []
  | fuel + 1, '{' :: '{' :: rest =>
    (match splitAtClose rest with
     | some (body, after) => body :: findPlaceholdersFuel fuel after
     | none => findPlaceholdersFuel fuel ('{' :: rest))
  | fuel + 1, _ :: rest => findPlaceholdersFuel fuel rest

/-- Mirrors `re.findall` of the non-greedy placeholder pattern over the text:
the list of captured placeholder bodies, in order. -/
def findPlaceholders (l : List Char) : List (List Char) :=
  findPlaceholdersFuel l.length l

/-- Fuel-driven replacement scan of every non-overlapping occurrence of the
(nonempty) pattern `p1 :: ptail`, left to right — Python `str.replace`.
Each step strictly shrinks the list, so any fuel of at least the list
length is exact. -/
def replaceFuel (p1 : Char) (ptail repl : List Char) :
    Nat → List Char → List Char
  | 0, l => l
  | _ + 1, [] => []
  | fuel + 1, c :: rest =>
    if c = p1 ∧ List.isPrefixOf ptail rest then
      repl ++ replaceFuel p1 ptail repl fuel (rest.drop ptail.length)
    else c :: replaceFuel p1 ptail repl fuel rest

/-- Replacement of every non-overlapping occurrence of the (nonempty) pattern
`p1 :: ptail` in a character list. -/
def replaceFromList (p1 : Char) (ptail repl : List Char) (l : List Char) :
    List Char :=
  replaceFuel p1 ptail repl l.length l

/-- String-level `str.replace` (for nonempty patterns; placeholder patterns
always have length at least four). -/
def pyReplace (s pat repl : String) : String :=
  match pat.data with
  | [] => s
  | p1 :: ptail => String.mk (replaceFromList p1 ptail repl.data s.data)

/-- The interpolation loop body: for each captured placeholder `p` in order,
look up `p.strip()` in the saved values; on a hit, globally replace
`\x7b\x7b` ++ p ++ `\x7d\x7d` in the accumulated result; on a miss, raise
`VariableMissingError` (strict mode). -/
def interpGo (saved : List (String × String)) :
    List (List Char) → String → Except Failure String
  | [], result => .ok result
  | p :: rest, result =>
    let key := pyStrip (String.mk p)
    match List.lookup key saved with
    | some v =>
      interpGo saved rest
        (pyReplace result (String.mk ('{' :: '{' :: (p ++ ['}', '}']))) v)
    | none => .error (variableMissingError key)

/-- Mirrors `BlockInterpreter._interpolate` on a text with the saved-values
map of the execution context. The Python method reads but never writes
`self.context.saved_values`, so the embedding takes the map as a plain
argument and returns only the resulting string. -/
def interpolate (saved : List (String × String)) (text : String) :
    Except Failure String :=
  interpGo saved (findPlaceholders text.data) text

/-! ## Bounded repetition (`interpreter.py`,
`BlockInterpreter._execute_repeat_until`) -/

/-- Repeat-until block data (`models.py`, class `RepeatUntilBlock`), with the
pydantic default `max_iterations = 10`. -/
structure RepeatUntilBlock where
  condition : Condition
  bodyBlocks : List String := []
  maxIterations : Nat := 10
deriving Repr

/-- The `while iteration < block.max_iterations` loop of
`_execute_repeat_until`: each pass increments the counter, runs the body
chain once, then checks the condition (`condAt i` is the condition outcome
after the `i`-th pass); a true condition breaks out; exhausting the bound
reaches the `while`-`else` clause, which raises the loop-safety
`BrowserEngineError`. Returns (number of body-chain executions, whether the
loop-safety failure was raised). -/
def repeatLoop (maxIterations : Nat) (condAt : Nat → Bool) (iteration : Nat) :
    Nat × Bool :=
  if _h : iteration < maxIterations then
    if condAt (iteration + 1) then (iteration + 1, false)
    else repeatLoop maxIterations condAt (iteration + 1)
  else (iteration, true)
termination_by maxIterations - iteration
decreasing_by omega

/-- Execution of a repeat-until block starting from `iteration = 0`. -/
def executeRepeatUntil (b : RepeatUntilBlock) (condAt : Nat → Bool) :
    Nat × Bool :=
  repeatLoop b.maxIterations condAt 0

/-! ## Confidence-adaptive retry policy (`interpreter.py`,
`BlockInterpreter._resolve_with_confidence`)

Waits are modelled in milliseconds: the Python intervals 0.5 s / 1.0 s /
2.0 s become 500 / 1000 / 2000, and for an integral-second timeout the
Python `int(float(timeout) / wait_interval)` (exact binary division followed
by truncation) equals natural division of the millisecond values. -/

/-- The confidence string actually used: the `confidence` attribute when
truthy (lower-cased), else the metadata `confidence` entry, else "medium". -/
def effectiveConfidence (ref : ElementRef) : String :=
  if ref.confidence ≠ "" then lowerStr ref.confidence
  else
    match List.lookup ("confidence") ref.metadata with
    | some c => lowerStr c
    | none => "medium"

/-- Retry parameters (max attempts, wait interval in ms) for a confidence
string and an optional explicit timeout (ms): high ⇒ 2 × 500 ms,
low ⇒ 5 × 2000 ms, anything else ⇒ 3 × 1000 ms; a positive explicit timeout
overrides the attempt count with `max 1 (timeout / interval)` at the same
interval. -/
def retryParams (conf : String) (timeoutMs : Option Nat) : Nat × Nat :=
  let base : Nat × Nat :=
    if conf = "high" then (2, 500)
    else if conf = "low" then (5, 2000)
    else (3, 1000)
  match timeoutMs with
  | some t => if 0 < t then (max 1 (t / base.2), base.2) else base
  | none => base

/-- Retry parameters chosen by `_resolve_with_confidence` for an element
reference. -/
def resolveRetryParams (ref : ElementRef) (timeoutMs : Option Nat) : Nat × Nat :=
  retryParams (effectiveConfidence ref) timeoutMs

/-! ## Capability gating (`interpreter.py`,
`BlockInterpreter._check_capabilities` and the interaction handlers) -/

/-- The interaction intents that gate on a capability. -/
inductive InteractionIntent
  | click
  | enterText
  | selectOption
  | uploadFile
  | submitForm
  | saveText
deriving DecidableEq, Repr

/-- The capability key each handler passes to `_check_capabilities`. -/
def requiredCapability : InteractionIntent → String
  | .click => "clickable"
  | .enterText => "editable"
  | .selectOption => "select_like"
  | .uploadFile => "file_input"
  | .submitForm => "submittable"
  | .saveText => "readable"

/-- Mirrors `_check_capabilities`: when the engine call
`get_element_capabilities` itself fails, do not block (return no failure);
otherwise raise `IntentCapabilityMismatchError` exactly when
`capabilities.get(required_capability, False)` is falsy. `some f` is the
raised failure, `none` means the check passes. -/
def checkCapabilities (caps : Except Unit (List (String × Bool)))
    (required : String) : Option Failure :=
  match caps with
  | .error _ => none
  | .ok capabilities =>
    if (List.lookup required capabilities).getD false then none
    else some intentCapabilityMismatchError

/-! ## MAWS element resolution (`resolution.py`, `JS_FIND_SEMANTIC`)

Candidates abstract live DOM elements by their observed attributes: `accName`
is the accessible name computed by the script's `getName` (already
lower-cased and trimmed), `role` the computed role from `getRole`, and the
remaining attributes mirror the raw DOM reads; `none` models a null/absent
attribute. The visibility filter and shadow-DOM traversal of the script are
abstracted into the given candidate list. The reference's `anchors` list is
taken to be empty (no proximity bonus), as in every default `ElementRef`. -/

/-- The reference data extracted by `ElementResolver.resolve` for the MAWS
script. -/
structure MawsRef where
  role : String
  name : String
  testId : Option String := none
  ariaLabel : Option String := none
  placeholder : Option String := none
  title : Option String := none
  tagName : Option String := none
deriving DecidableEq, Repr

/-- A scored page candidate as seen by the MAWS script. -/
structure MawsCandidate where
  accName : String
  role : String
  testId : Option String := none
  ariaLabel : Option String := none
  placeholder : Option String := none
  title : Option String := none
  tagName : String := ""
deriving DecidableEq, Repr

/-- Words of length greater than two, after splitting on whitespace — the
script's `split(/\s+/).filter(w => w.length > 2)`. -/
def scoringWords (s : String) : List String :=
  (wordsOf s).filter (fun w => w.length > 2)

/-- The name-match component of the MAWS score: 12 for equality, 8 for
substring containment in either direction, else 4 per overlapping scoring
word; 0 when either name is empty. -/
def nameScore (targetName elName : String) : Nat :=
  if targetName ≠ "" ∧ elName ≠ "" then
    if elName = targetName then 12
    else if strIncludes elName targetName || strIncludes targetName elName then 8
    else
      4 * ((scoringWords targetName).filter
            (fun w => (scoringWords elName).contains w)).length
  else 0

/-- The full MAWS score of a candidate for a reference: test-id 15, name
component, ARIA label 8, role 5, placeholder 3, title 3, tag 1. -/
def mawsScore (ref : MawsRef) (el : MawsCandidate) : Nat :=
  let targetName := pyStrip (lowerStr ref.name)
  let targetRole := lowerStr ref.role
  (if ref.testId ≠ none ∧ el.testId = ref.testId then 15 else 0)
    + nameScore targetName el.accName
    + (if ref.ariaLabel ≠ none ∧ el.ariaLabel = ref.ariaLabel then 8 else 0)
    + (if targetRole ≠ "" ∧ targetRole ≠ "any" ∧ el.role = targetRole then 5 else 0)
    + (if ref.placeholder ≠ none ∧ el.placeholder = ref.placeholder then 3 else 0)
    + (if ref.title ≠ none ∧ el.title = ref.title then 3 else 0)
    + (if ref.tagName ≠ none ∧ some el.tagName = ref.tagName then 1 else 0)

/-- The script keeps only candidates whose score clears the confidence
threshold (`score > 5`), sorts them by score descending (a stable sort), and
returns `candidates[0]`. The head of that stable descending sort is the
first candidate attaining the maximal score, computed here by a fold. -/
def mawsTop (ref : MawsRef) (els : List MawsCandidate) : Option MawsCandidate :=
  let candidates := els.filter (fun e => mawsScore ref e > 5)
  candidates.foldl
    (fun best e =>
      match best with
      | none => some e
      | some b => if mawsScore ref e > mawsScore ref b then some e else best)
    none

/-! ## Structural resolution (`structural_resolver.py`, `JS_STRUCTURAL_RESOLVE`
and `StructuralResolver.resolve`) -/

/-- The `ICON_PATTERNS` table keyed by system role. -/
def iconPatterns : String → List String
  | "cart" => ["cart", "shopping", "basket", "bag"]
  | "basket" => ["cart", "shopping", "basket", "bag"]
  | "menu" => ["menu", "hamburger", "bars", "nav"]
  | "navigation" => ["menu", "hamburger", "bars", "nav"]
  | "search" => ["search", "magnify", "find", "glass"]
  | "profile" => ["user", "account", "person", "profile", "avatar"]
  | "account" => ["user", "account", "person", "profile"]
  | "close" => ["close", "x", "times", "dismiss", "cancel"]
  | "dismiss" => ["close", "x", "times", "dismiss"]
  | "more" => ["more", "ellipsis", "dots", "options", "overflow"]
  | _ => []

/-- An interactive candidate for structural resolution, abstracted by the
features the script reads: lower-cased markup, class and attribute strings,
the position-cluster flags derived from its bounding rectangle, its href,
the surrounding text, and visibility. -/
structure StructCandidate where
  innerHTML : String := ""
  className : String := ""
  dataStr : String := ""
  topRight : Bool := false
  topLeft : Bool := false
  href : String := ""
  parentText : String := ""
  visible : Bool := true
deriving DecidableEq, Repr

/-- The multi-signal structural score: icon-pattern hits in markup (15),
class (10) and attributes (8); position clustering (12); href affinity (10);
nearby-text hints (5 per pattern). -/
def structuralScore (systemRole : String) (c : StructCandidate) : Nat :=
  let patterns := iconPatterns systemRole
  (patterns.foldl
    (fun acc p =>
      acc + (if strIncludes c.innerHTML p then 15 else 0)
          + (if strIncludes c.className p then 10 else 0)
          + (if strIncludes c.dataStr p then 8 else 0)) 0)
    + (if ["cart", "basket", "profile", "account"].contains systemRole
          && c.topRight then 12 else 0)
    + (if ["menu", "navigation", "hamburger"].contains systemRole
          && c.topLeft then 12 else 0)
    + (if systemRole = "cart"
          && (strIncludes c.href ("cart") || strIncludes c.href ("checkout"))
       then 10 else 0)
    + (if systemRole = "profile"
          && (strIncludes c.href ("profile") || strIncludes c.href ("account"))
       then 10 else 0)
    + (if systemRole = "search"
          && (strIncludes c.href ("search") || strIncludes c.href ("find"))
       then 10 else 0)
    + (patterns.foldl
        (fun acc p => acc + (if strIncludes c.parentText p then 5 else 0)) 0)

/-- Outcome of the structural-resolution script. -/
inductive StructResult
  | noCandidates
  | lowConfidence (score : Nat) (threshold : Nat)
  | resolved (c : StructCandidate) (score : Nat)
deriving DecidableEq, Repr

/-- The script's candidate list: visible interactive elements with a positive
multi-signal score. -/
def structCandidates (systemRole : String) (els : List StructCandidate) :
    List StructCandidate :=
  (els.filter (fun e => e.visible)).filter
    (fun e => structuralScore systemRole e > 0)

/-- The best candidate: the script sorts by score descending (a stable sort)
and takes `candidates[0]`, i.e. the first candidate attaining the maximal
score, computed here by a fold. -/
def bestStructCandidate (systemRole : String) (els : List StructCandidate) :
    Option StructCandidate :=
  (structCandidates systemRole els).foldl
    (fun best e =>
      match best with
      | none => some e
      | some b =>
        if structuralScore systemRole e > structuralScore systemRole b then some e
        else best)
    none

/-- Mirrors `resolveStructuralIntent`: no candidates is an error; a best
candidate below the strict confidence floor (`best.score < 25`) is an
explicit `low_confidence` error; otherwise the best candidate is returned
with its score. -/
def resolveStructuralIntent (systemRole : String) (els : List StructCandidate) :
    StructResult :=
  match bestStructCandidate systemRole els with
  | none => .noCandidates
  | some b =>
    if structuralScore systemRole b < 25 then
      .lowConfidence (structuralScore systemRole b) 25
    else .resolved b (structuralScore systemRole b)

/-- Python-side reasons for a structural-resolution `BrowserEngineError`. -/
inductive StructFailureReason
  | noCandidates
  | lowConfidence (score : Nat) (threshold : Nat)
deriving DecidableEq, Repr

/-- Mirrors `StructuralResolver.resolve` on the script result: both error
variants raise a `BrowserEngineError` (modelled as `.error` with the
reason); only a resolved candidate is returned. -/
def structuralResolverResolve (systemRole : String)
    (els : List StructCandidate) : Except StructFailureReason StructCandidate :=
  match resolveStructuralIntent systemRole els with
  | .noCandidates => .error .noCandidates
  | .lowConfidence s t => .error (.lowConfidence s t)
  | .resolved c _ => .ok c

/-! ## Region-scoped resolution (`resolution.py`, `JS_FIND_IN_REGION` and the
user-declared branch of `ElementResolver.resolve`) -/

/-- A page element abstracted by its computed role (`getRole`) and
visibility. -/
structure PageElement where
  role : String
  visible : Bool := true
deriving DecidableEq, Repr

/-- A page as seen by the region script: landmark lookups by tag and by ARIA
role (`document.querySelector`), and the whole document body. -/
structure RegionPage where
  lookupTag : String → Option (List PageElement)
  lookupRole : String → Option (List PageElement)
  body : List PageElement

/-- The script's `regionMap`: (tag selector, role selector) per region name,
`(none, none)` for an unknown region. -/
def regionMapPair : String → Option String × Option String
  | "header" => (some ("header"), some ("banner"))
  | "navigation" => (some ("nav"), some ("navigation"))
  | "main" => (some ("main"), some ("main"))
  | "footer" => (some ("footer"), some ("contentinfo"))
  | "toolbar" => (none, some ("toolbar"))
  | _ => (none, none)

/-- Region-root selection: try the tag selector, then the role selector, and
fall back to `document.body` when neither finds the landmark. -/
def findRegionRoot (page : RegionPage) (region : String) : List PageElement :=
  let sel := regionMapPair region
  let root1 :=
    match sel.1 with
    | some t => page.lookupTag t
    | none => none
  let root2 :=
    match root1 with
    | some r => some r
    | none =>
      match sel.2 with
      | some rn => page.lookupRole rn
      | none => none
  match root2 with
  | some r => r
  | none => page.body

/-- Outcome of the region script. -/
inductive RegionResult
  | noMatch
  | multipleMatches (count : Nat)
  | found (e : PageElement)
deriving DecidableEq, Repr

/-- The visible elements of the searched scope whose computed role equals the
(lower-cased) target role exactly. -/
def regionMatches (page : RegionPage) (refRole : String) (region : String) :
    List PageElement :=
  (findRegionRoot page region).filter
    (fun e => e.visible && !(lowerStr refRole == "") && e.role == lowerStr refRole)

/-- Mirrors `findInRegion`: demand exactly one role match within the searched
scope. -/
def findInRegion (page : RegionPage) (refRole : String) (region : String) :
    RegionResult :=
  match regionMatches page refRole region with
  | [] => .noMatch
  | [e] => .found e
  | ms@(_ :: _ :: _) => .multipleMatches ms.length

/-- Mirrors the user-declared regional branch of `ElementResolver.resolve`:
`no_match` raises `ElementMissingError` (= `ElementNotFoundInDOMError`,
APP / CERTAIN), `multiple_matches` raises `ElementAmbiguousError`
(= `ResolutionAmbiguityError`, ENGINE / HEURISTIC), and a unique match is
returned. -/
def regionScopedResolve (page : RegionPage) (refRole : String)
    (region : String) : Except Failure PageElement :=
  match findInRegion page refRole region with
  | .noMatch => .error elementNotFoundInDOMError
  | .multipleMatches n => .error (resolutionAmbiguityError n)
  | .found e => .ok e

/-! ## Condition evaluation (`interpreter.py`,
`BlockInterpreter._evaluate_condition`)

Engine calls are abstracted by an oracle whose operations either produce a
value or raise a `BrowserEngineError` (`Except Unit`). Resolution through
`_resolve_with_confidence` surfaces its failures as `BrowserEngineError`,
so it is part of the same oracle. The outer `except BrowserEngineError`
of `_evaluate_condition` turns any such error into `False`; the inner
handler of `element_not_visible` turns it into `True`; `ValueError`s for
missing condition fields propagate. -/

/-- Oracle for the engine calls made during condition evaluation. -/
structure ConditionOracle where
  resolveElem : ElementRef → Except Unit Unit := fun _ => .ok ()
  isVisible : ElementRef → Except Unit Bool := fun _ => .ok true
  elementText : ElementRef → Except Unit String := fun _ => .ok ("")
  pageTitle : Except Unit String := .ok ("")
  currentUrl : Except Unit String := .ok ("")

/-- Errors that can escape `_evaluate_condition`: `ValueError` for missing
condition fields, `TypeError` for the unvalidated `contains`-mode `in` on
`None`, and — expressible but never produced — a propagated
`BrowserEngineError`. -/
inductive EvalErr
  | valueError
  | typeError
  | browserError
deriving DecidableEq, Repr

/-- Mirrors `_evaluate_condition` kind by kind. -/
def evaluateCondition (o : ConditionOracle) (saved : List (String × String))
    (c : Condition) : Except EvalErr Bool :=
  match c.kind with
  | .elementVisible =>
    match c.element with
    | none => .error .valueError
    | some el =>
      match o.resolveElem el with
      | .error _ => .ok false
      | .ok _ =>
        match o.isVisible el with
        | .error _ => .ok false
        | .ok v => .ok v
  | .elementNotVisible =>
    match c.element with
    | none => .error .valueError
    | some el =>
      match o.resolveElem el with
      | .error _ => .ok true
      | .ok _ =>
        match o.isVisible el with
        | .error _ => .ok true
        | .ok v => .ok (!v)
  | .textMatch =>
    match c.element with
    | none => .ok false
    | some el =>
      match o.resolveElem el with
      | .error _ => .ok false
      | .ok _ =>
        match o.elementText el with
        | .error _ => .ok false
        | .ok actual =>
          if c.matchMode = none ∨ c.matchMode = some ("") ∨ c.matchMode = some ("equals") then
            match c.value with
            | some v => .ok (actual = v)
            | none => .ok false
          else
            match c.value with
            | some v => .ok (strIncludes actual v)
            | none => .error .typeError
  | .pageTitleEquals =>
    match c.expectedTitle with
    | none => .error .valueError
    | some t =>
      if t = "" then .error .valueError
      else
        match o.pageTitle with
        | .error _ => .ok false
        | .ok cur => .ok (cur = t)
  | .urlContains =>
    match c.expectedFragment with
    | none => .error .valueError
    | some frag =>
      if frag = "" then .error .valueError
      else
        match o.currentUrl with
        | .error _ => .ok false
        | .ok u => .ok (strIncludes u frag)
  | .savedValueExists =>
    match c.valueRef with
    | none => .error .valueError
    | some r => .ok (List.lookup r.key saved ≠ none)
  | .savedValueEquals =>
    match c.valueRef, c.expectedText with
    | none, _ => .error .valueError
    | _, none => .error .valueError
    | some r, some t =>
      if t = "" then .error .valueError
      else .ok ((List.lookup r.key saved).getD ("") = t)

/-! ## Accessors used to state the placeholder-prohibition claim -/

/-- The control-flow condition of a block, when it has one (`if_condition`
and `repeat_until`). -/
def controlFlowCondition (b : Block) : Option Condition :=
  match b.payload with
  | .ifCondition cond _ _ => some cond
  | .repeatUntil cond _ _ => some cond
  | _ => none

/-- The element-selection name of a block, for exactly the twelve block types
in the `element_blocks` tuple of `validate_completeness` (note that
`use_saved_value` and `visual_verify` are not among them). -/
def checkedElementName (b : Block) : Option String :=
  match b.payload with
  | .clickElement el => el.map (fun e => e.name)
  | .enterText el _ => el.map (fun e => e.name)
  | .waitUntilVisible el _ => el.map (fun e => e.name)
  | .assertVisible el => some el.name
  | .selectOption el _ => el.map (fun e => e.name)
  | .uploadFile el _ => el.map (fun e => e.name)
  | .verifyText el _ => el.map (fun e => e.name)
  | .scrollToElement el => el.map (fun e => e.name)
  | .saveText el _ => el.map (fun e => e.name)
  | .verifyElementEnabled el => el.map (fun e => e.name)
  | .submitForm el => el.map (fun e => e.name)
  | .submitCurrentInput el => el.map (fun e => e.name)
  | _ => none

/-! ## Claim C1 -/

/-- C1 counterexample: completeness validation alone does not make the entry
block resolve. The flow whose single block is a delay block with id "b" and
whose `entry_block` is the nonexistent id "a" passes `validate_completeness`
with an empty error list, yet the entry id resolves to no block in the set
(and only `validate_references` would report it). -/
theorem c1_counterexample :
    validate_completeness { entryBlock := "a", blocks := [{ id := "b", payload := .delay }] } = []
    ∧ ("a" ∈ blockIds { entryBlock := "a", blocks := [{ id := "b", payload := .delay }] }) = False
    ∧ validate_references { entryBlock := "a", blocks := [{ id := "b", payload := .delay }] } ≠ [] := by
  refine ⟨rfl, ?_, by decide⟩
  simp [blockIds]

/-- C1 amended: entry-block resolution is guaranteed by *reference*
validation, not by completeness validation, and rootness is guaranteed by
the run endpoint's explicit `is_root` check: for every flow, an empty
`validate_references` list implies the entry id resolves to a block of the
set, and a passing `is_root` check implies no block references the entry as
`next`, `then`, `else` or `body` child. -/
theorem c1_entry_resolution_and_root (f : FlowGraph) :
    (validate_references f = [] → f.entryBlock ∈ blockIds f)
    ∧ (entryIsRoot f = true →
        ∀ b ∈ f.blocks, referencesAsChild f.entryBlock b = false) := by
  constructor
  · intro h
    by_contra hmem
    simp [validate_references, hmem] at h
  · intro h b hb
    unfold entryIsRoot at h
    rw [List.all_eq_true] at h
    have := h b hb
    simpa using this

/-- C1 witness: the amended theorem applied to a concrete one-block flow
whose entry id resolves and is a root. -/
theorem c1_witness :
    ("a" : String) ∈ blockIds { entryBlock := "a", blocks := [{ id := "a", payload := .delay }] }
    ∧ ∀ b ∈ ({ entryBlock := "a", blocks := [{ id := "a", payload := .delay }] } : FlowGraph).blocks,
        referencesAsChild ("a") b = false :=
  ⟨(c1_entry_resolution_and_root _).1 (by decide),
   (c1_entry_resolution_and_root _).2 (by decide)⟩

/-! ## Claim C2 -/

/-- Auxiliary: when the condition is false at every check, the repeat loop
runs its body once per remaining iteration and ends in the loop-safety
failure. -/
theorem repeatLoop_all_false (m : Nat) (condAt : Nat → Bool)
    (hc : ∀ j, condAt j = false) :
    ∀ k i, i ≤ m → m - i ≤ k → repeatLoop m condAt i = (m, true) := by
  intro k
  induction k with
  | zero =>
    intro i hle hk
    have : i = m := by omega
    subst this
    rw [repeatLoop]
    simp
  | succ k ih =>
    intro i hle hk
    by_cases hlt : i < m
    · rw [repeatLoop]
      rw [dif_pos hlt, hc (i + 1)]
      simp only [Bool.false_eq_true, if_false]
      exact ih (i + 1) (by omega) (by omega)
    · have : i = m := by omega
      subst this
      rw [repeatLoop]
      simp

/-- C2: a `repeat_until` block whose condition is false at every check
executes its body chain exactly `maxIterations` times and then raises the
loop-safety failure (the `while`-`else` `BrowserEngineError`), never looping
unboundedly — the loop function is total; and the pydantic default for
`max_iterations` is 10. -/
theorem c2_repeat_until_termination (b : RepeatUntilBlock) (condAt : Nat → Bool)
    (hc : ∀ j, condAt j = false) :
    executeRepeatUntil b condAt = (b.maxIterations, true)
    ∧ ∀ c : Condition, ({ condition := c } : RepeatUntilBlock).maxIterations = 10 := by
  constructor
  · exact repeatLoop_all_false b.maxIterations condAt hc (b.maxIterations) 0
      (by omega) (by omega)
  · intro c
    rfl

/-- C2 witness: the theorem applied to a concrete repeat-until block with the
default iteration bound and a never-true condition. -/
theorem c2_witness :
    executeRepeatUntil { condition := { kind := .urlContains, expectedFragment := some ("x") } }
      (fun _ => false) = (10, true) :=
  (c2_repeat_until_termination _ _ (fun _ => rfl)).1

/-! ## Claim C3 -/

/-- Auxiliary: the interpolation loop errors exactly when some captured
placeholder's stripped key has no saved value. -/
theorem interpGo_error_iff (saved : List (String × String)) :
    ∀ (ps : List (List Char)) (res : String),
      (∃ e, interpGo saved ps res = .error e) ↔
        ∃ p ∈ ps, List.lookup (pyStrip (String.mk p)) saved = none := by
  intro ps
  induction ps with
  | nil => intro res; simp [interpGo]
  | cons p rest ih =>
    intro res
    rw [interpGo]
    cases hl : List.lookup (pyStrip (String.mk p)) saved with
    | some v =>
      simp only [hl]
      rw [ih]
      constructor
      · rintro ⟨q, hq, hq2⟩
        exact ⟨q, List.mem_cons_of_mem _ hq, hq2⟩
      · rintro ⟨q, hq, hq2⟩
        rcases List.mem_cons.mp hq with rfl | hmem
        · simp [hl] at hq2
        · exact ⟨q, hmem, hq2⟩
    | none =>
      simp only [hl]
      constructor
      · intro _
        exact ⟨p, List.mem_cons_self p rest, hl⟩
      · intro _
        exact ⟨variableMissingError (pyStrip (String.mk p)), rfl⟩

/-- Auxiliary: any error produced by the interpolation loop is a
`VariableMissingError`, hence USER-owned and CERTAIN. -/
theorem interpGo_error_fields (saved : List (String × String)) :
    ∀ (ps : List (List Char)) (res : String) (e : Failure),
      interpGo saved ps res = .error e →
        e.owner = .USER ∧ e.determinism = .CERTAIN ∧ e.kind = .variableMissing := by
  intro ps
  induction ps with
  | nil => intro res e h; simp [interpGo] at h
  | cons p rest ih =>
    intro res e h
    rw [interpGo] at h
    cases hl : List.lookup (pyStrip (String.mk p)) saved with
    | some v => rw [hl] at h; exact ih _ e h
    | none =>
      rw [hl] at h
      simp only [Except.error.injEq] at h
      subst h
      exact ⟨rfl, rfl, rfl⟩

/-- C3 amended: interpolation raises a failure iff the text contains a
captured placeholder whose stripped key is absent from the saved values
(no silent passthrough of a resolvable placeholder is possible), and any
such failure is the USER-owned, CERTAIN `VariableMissingError`; the
embedding is a pure function of the saved-value map, which it never
modifies; and re-applying interpolation yields the same string whenever the
first result contains no placeholder (the unconditional idempotence of the
original claim fails when a saved value itself carries placeholder text,
see the counterexample). -/
theorem c3_interpolation_strict (saved : List (String × String)) (text : String) :
    ((∃ e, interpolate saved text = .error e) ↔
      ∃ p ∈ findPlaceholders text.data, List.lookup (pyStrip (String.mk p)) saved = none)
    ∧ (∀ e, interpolate saved text = .error e →
        e.owner = .USER ∧ e.determinism = .CERTAIN ∧ e.kind = .variableMissing)
    ∧ (∀ r, interpolate saved text = .ok r → findPlaceholders r.data = [] →
        interpolate saved r = .ok r) := by
  refine ⟨interpGo_error_iff saved _ text, ?_, ?_⟩
  · intro e h
    exact interpGo_error_fields saved _ text e h
  · intro r _ hr
    unfold interpolate
    rw [hr]
    rfl

/-- C3 counterexample: interpolation is not idempotent as claimed. With saved
values `a ↦ \x7b\x7bb\x7d\x7d` and `b ↦ x`, interpolating
`\x7b\x7ba\x7d\x7d` (whose only referenced key, `a`, is present) succeeds
with `\x7b\x7bb\x7d\x7d`, and interpolating that result again yields `x`,
a different string. -/
theorem c3_counterexample :
    interpolate [("a", "\x7b\x7bb\x7d\x7d"), ("b", "x")] ("\x7b\x7ba\x7d\x7d")
      = .ok ("\x7b\x7bb\x7d\x7d")
    ∧ interpolate [("a", "\x7b\x7bb\x7d\x7d"), ("b", "x")] ("\x7b\x7bb\x7d\x7d")
      = .ok ("x")
    ∧ ("x" : String) ≠ "\x7b\x7bb\x7d\x7d" :=
  ⟨rfl, rfl, by decide⟩

/-- C3 witness: the amended theorem applied to a concrete interpolation whose
result is placeholder-free, hence stable under re-application. -/
theorem c3_witness : interpolate [("k", "v")] ("v") = .ok ("v") :=
  (c3_interpolation_strict [("k", "v")] ("\x7b\x7bk\x7d\x7d")).2.2 ("v") rfl rfl

/-! ## Claim C4 -/

/-- Auxiliary: an exact accessible-name match scores 12. -/
theorem nameScore_self (t : String) (h : t ≠ "") : nameScore t t = 12 := by
  simp [nameScore, h]

/-- Auxiliary: a non-exact name scores at most the larger of the substring
bonus (8) and four points per scoring word of the target. -/
theorem nameScore_ne_le (t n : String) (hne : n ≠ t) :
    nameScore t n ≤ max 8 (4 * (scoringWords t).length) := by
  unfold nameScore
  by_cases h0 : t ≠ "" ∧ n ≠ ""
  · rw [if_pos h0, if_neg hne]
    by_cases hsub : (strIncludes n t || strIncludes t n) = true
    · rw [if_pos hsub]
      exact Nat.le_max_left _ _
    · rw [if_neg hsub]
      exact le_trans
        (Nat.mul_le_mul_left 4 (List.length_filter_le _ _))
        (Nat.le_max_right _ _)
  · rw [if_neg h0]
    exact Nat.zero_le _

/-- Auxiliary: a strictly higher-scoring candidate that clears the candidacy
threshold is ranked first by the stable score-descending sort, whichever
side of the pair it appears on. -/
theorem mawsTop_pair (ref : MawsRef) (A B : MawsCandidate)
    (hA5 : mawsScore ref A > 5) (hAB : mawsScore ref A > mawsScore ref B) :
    mawsTop ref [A, B] = some A ∧ mawsTop ref [B, A] = some A := by
  have hnot : ¬ (mawsScore ref B > mawsScore ref A) := by omega
  unfold mawsTop
  by_cases hB5 : mawsScore ref B > 5
  · constructor
    · simp [hA5, hB5, List.foldl, hnot]
    · simp [hA5, hB5, List.foldl, hAB]
  · constructor
    · simp [hA5, hB5, List.foldl]
    · simp [hA5, hB5, List.foldl]

/-- C4 amended: when the target accessible name (lower-cased and trimmed) has
at most two scoring words — so that the maximal fuzzy name bonus, 8, stays
below the exact-match bonus, 12 — an exactly-matching visible candidate
always outscores a non-exactly-matching one with all other scored
attributes equal, and is ranked above it. (The original unrestricted claim
fails: with three or more scoring words the word-overlap bonus of a fuzzy
candidate reaches 4 × 3 ≥ 12; see the counterexample.) -/
theorem c4_exact_match_ranks_higher (ref : MawsRef) (A B : MawsCandidate)
    (hA : A.accName = pyStrip (lowerStr ref.name))
    (hB : B.accName ≠ pyStrip (lowerStr ref.name))
    (heq : A.testId = B.testId ∧ A.role = B.role ∧ A.ariaLabel = B.ariaLabel
      ∧ A.placeholder = B.placeholder ∧ A.title = B.title ∧ A.tagName = B.tagName)
    (hname : pyStrip (lowerStr ref.name) ≠ "")
    (hwords : (scoringWords (pyStrip (lowerStr ref.name))).length ≤ 2) :
    mawsScore ref A > mawsScore ref B
    ∧ mawsTop ref [A, B] = some A
    ∧ mawsTop ref [B, A] = some A := by
  obtain ⟨h1, h2, h3, h4, h5, h6⟩ := heq
  have e12 := nameScore_self _ hname
  have e8 : nameScore (pyStrip (lowerStr ref.name)) B.accName ≤ 8 := by
    refine le_trans (nameScore_ne_le _ _ hB) ?_
    exact Nat.max_le.mpr ⟨le_refl 8, by omega⟩
  have hscore : mawsScore ref A > mawsScore ref B := by
    simp only [mawsScore, h1, h2, h3, h4, h5, h6, hA]
    omega
  have h5A : mawsScore ref A > 5 := by
    simp only [mawsScore, hA]
    omega
  exact ⟨hscore, mawsTop_pair ref A B h5A hscore⟩

/-- C4 counterexample: with the four-scoring-word target name
"one two three four", the candidate whose accessible name is the exact
string scores 12 + 5 (role) = 17, while a fuzzy word-overlap candidate
named "four three two one" (neither equal nor a substring) scores
4 × 4 + 5 = 21 and is ranked above the exact match. -/
theorem c4_counterexample :
    mawsScore { role := "button", name := "one two three four" }
        { accName := "four three two one", role := "button" }
      > mawsScore { role := "button", name := "one two three four" }
        { accName := "one two three four", role := "button" }
    ∧ mawsTop { role := "button", name := "one two three four" }
        [{ accName := "one two three four", role := "button" },
         { accName := "four three two one", role := "button" }]
      = some { accName := "four three two one", role := "button" } := by
  constructor
  · decide
  · decide

/-- C4 witness: the amended theorem applied to the spec's own example — target
name "Submit", one exact candidate and one fuzzy-substring candidate
"submit order", all other attributes equal. -/
theorem c4_witness :
    mawsScore { role := "button", name := "Submit" }
        { accName := "submit", role := "button" }
      > mawsScore { role := "button", name := "Submit" }
        { accName := "submit order", role := "button" } :=
  (c4_exact_match_ranks_higher { role := "button", name := "Submit" }
    { accName := "submit", role := "button" }
    { accName := "submit order", role := "button" }
    (by decide) (by decide)
    ⟨rfl, rfl, rfl, rfl, rfl, rfl⟩ (by decide) (by decide)).1

/-! ## Claim C5 -/

/-- C5: structural resolution enforces the fixed confidence floor 25
(independent of the primary resolver's threshold 5): a candidate is ever
returned only when its multi-signal score meets or exceeds 25, and whenever
the best candidate's score is below 25 the call fails with the explicit
`low_confidence` error carrying that score and the threshold — it never
returns the best-available candidate. -/
theorem c5_structural_confidence_floor (systemRole : String)
    (els : List StructCandidate) :
    (∀ c, structuralResolverResolve systemRole els = .ok c →
        25 ≤ structuralScore systemRole c)
    ∧ (∀ b, bestStructCandidate systemRole els = some b →
        structuralScore systemRole b < 25 →
          structuralResolverResolve systemRole els
            = .error (.lowConfidence (structuralScore systemRole b) 25)) := by
  constructor
  · intro c hc
    unfold structuralResolverResolve resolveStructuralIntent at hc
    cases hb : bestStructCandidate systemRole els with
    | none => rw [hb] at hc; simp at hc
    | some b =>
      rw [hb] at hc
      by_cases hlow : structuralScore systemRole b < 25
      · simp only [if_pos hlow] at hc
        simp at hc
      · simp only [if_neg hlow] at hc
        simp at hc
        subst hc
        omega
  · intro b hb hlow
    unfold structuralResolverResolve resolveStructuralIntent
    rw [hb]
    simp only [if_pos hlow]

/-- C5 witness: the theorem applied to a concrete page whose best "cart"
candidate scores only 15 (one markup icon hit), below the floor. -/
theorem c5_witness :
    structuralResolverResolve ("cart") [{ innerHTML := "<svg class=cart>" }]
      = .error (.lowConfidence 15 25) :=
  (c5_structural_confidence_floor ("cart") [{ innerHTML := "<svg class=cart>" }]).2
    { innerHTML := "<svg class=cart>" } (by decide) (by decide)

/-! ## Claim C6 -/

/-- C6 amended: for every region-scoped resolution of a user-declared element,
the searched scope is the landmark's subtree whenever the landmark is found
by its tag selector (the code falls back to the whole page when it is not —
see the counterexample); within the searched scope exactly one exact-role
match is required: zero matches raises the element-not-found failure
(APP / CERTAIN), a unique match is returned, and two or more matches raise
the resolution-ambiguity failure classified ENGINE / HEURISTIC with the
match count — never an arbitrary pick. -/
theorem c6_region_exactly_one (page : RegionPage) (refRole region : String) :
    (∀ t L, (regionMapPair region).1 = some t → page.lookupTag t = some L →
        findRegionRoot page region = L)
    ∧ (regionMatches page refRole region = [] →
        regionScopedResolve page refRole region = .error elementNotFoundInDOMError
        ∧ elementNotFoundInDOMError.kind = .elementNotFoundInDOM
        ∧ elementNotFoundInDOMError.owner = .APP
        ∧ elementNotFoundInDOMError.determinism = .CERTAIN)
    ∧ (∀ e, regionMatches page refRole region = [e] →
        regionScopedResolve page refRole region = .ok e)
    ∧ (2 ≤ (regionMatches page refRole region).length →
        ∃ f, regionScopedResolve page refRole region = .error f
          ∧ f.kind = .resolutionAmbiguity
          ∧ f.owner = .ENGINE
          ∧ f.determinism = .HEURISTIC
          ∧ f.candidateCount = (regionMatches page refRole region).length) := by
  refine ⟨?_, ?_, ?_, ?_⟩
  · intro t L ht hL
    unfold findRegionRoot
    rcases hsel : regionMapPair region with ⟨s1, s2⟩
    rw [hsel] at ht
    simp at ht
    subst ht
    simp [hL]
  · intro h
    unfold regionScopedResolve findInRegion
    rw [h]
    exact ⟨rfl, rfl, rfl, rfl⟩
  · intro e h
    unfold regionScopedResolve findInRegion
    rw [h]
  · intro h
    unfold regionScopedResolve findInRegion
    cases hm : regionMatches page refRole region with
    | nil => rw [hm] at h; simp at h
    | cons e rest =>
      cases rest with
      | nil => rw [hm] at h; simp at h
      | cons e2 rest2 =>
        exact ⟨resolutionAmbiguityError (e :: e2 :: rest2).length, rfl, rfl, rfl, rfl, rfl⟩

/-- C6 counterexample: the claim's "search is restricted to that semantic
landmark" fails when the landmark is absent. On a page with no header
landmark (both the tag and the ARIA-role lookups miss) and a single visible
button in the body, resolving role "button" in region "header" succeeds
with the body element instead of failing with zero landmark matches. -/
theorem c6_counterexample :
    (RegionPage.mk (fun _ => none) (fun _ => none) [{ role := "button" }]).lookupTag ("header") = none
    ∧ (RegionPage.mk (fun _ => none) (fun _ => none) [{ role := "button" }]).lookupRole ("banner") = none
    ∧ regionScopedResolve
        (RegionPage.mk (fun _ => none) (fun _ => none) [{ role := "button" }])
        ("button") ("header")
      = .ok { role := "button" } :=
  ⟨rfl, rfl, rfl⟩

/-- C6 witness: the amended theorem applied to a page whose header landmark
exists and contains exactly one button. -/
theorem c6_witness :
    regionScopedResolve
      (RegionPage.mk
        (fun t => if t = "header" then some [{ role := "button" }] else none)
        (fun _ => none) [])
      ("button") ("header")
      = .ok { role := "button" } :=
  (c6_region_exactly_one
    (RegionPage.mk
      (fun t => if t = "header" then some [{ role := "button" }] else none)
      (fun _ => none) [])
    ("button") ("header")).2.2.1 { role := "button" } (by decide)

/-! ## Claim C7 -/

/-- Auxiliary: a block with a placeholder in a control-flow condition value
field, or in the element name of one of the twelve checked block types,
contributes at least one prohibition error. -/
theorem placeholderErrors_ne_nil (b : Block)
    (hviol :
      (∃ cond, controlFlowCondition b = some cond ∧
        (contains_variable cond.value || contains_variable cond.expectedTitle
          || contains_variable cond.expectedFragment
          || contains_variable cond.expectedText) = true)
      ∨ (∃ n, checkedElementName b = some n ∧ contains_variable (some n) = true)) :
    placeholderErrors b ≠ [] := by
  obtain ⟨bid, nb, payload⟩ := b
  rcases hviol with ⟨cond, hcond, hflags⟩ | ⟨n, hname, hvar⟩
  · cases payload <;> simp only [controlFlowCondition] at hcond
    all_goals try exact Option.noConfusion hcond
    all_goals injection hcond with hc
    all_goals subst hc
    all_goals simp only [Bool.or_eq_true] at hflags
    all_goals rcases hflags with ((h1 | h2) | h3) | h4
    all_goals first
      | simp [placeholderErrors, h1]
      | simp [placeholderErrors, h2]
      | simp [placeholderErrors, h3]
      | simp [placeholderErrors, h4]
  · cases payload <;> simp only [checkedElementName] at hname
    all_goals try exact Option.noConfusion hname
    case assertVisible el =>
      injection hname with hn
      subst hn
      simp [placeholderErrors, hvar]
    all_goals rw [Option.map_eq_some'] at hname
    all_goals obtain ⟨e, hel, hn⟩ := hname
    all_goals subst hn
    all_goals subst hel
    all_goals simp [placeholderErrors, hvar]

/-- C7 amended: completeness validation reports a prohibition error for every
block whose control-flow condition value (text-match value, expected title,
expected URL fragment, expected saved-value text) contains a placeholder,
and for every block of the twelve checked element-interaction types whose
element name contains one — such a flow is not runnable (DRAFT) — while
`open_page` navigation targets are exempted by the explicit environment
relaxation. (The original claim's "every block" fails for `use_saved_value`,
whose target-element name is not in the checked tuple; see the
counterexample.) -/
theorem c7_placeholder_prohibition (f : FlowGraph) (b : Block) (hb : b ∈ f.blocks)
    (hviol :
      (∃ cond, controlFlowCondition b = some cond ∧
        (contains_variable cond.value || contains_variable cond.expectedTitle
          || contains_variable cond.expectedFragment
          || contains_variable cond.expectedText) = true)
      ∨ (∃ n, checkedElementName b = some n ∧ contains_variable (some n) = true)) :
    validate_completeness f ≠ [] ∧ get_state f = .draft
    ∧ ∀ i nb u, placeholderErrors { id := i, nextBlock := nb, payload := .openPage u } = [] := by
  have hpe := placeholderErrors_ne_nil b hviol
  obtain ⟨m, hm⟩ := List.exists_mem_of_ne_nil _ hpe
  have hmem : m ∈ validate_completeness f := by
    unfold validate_completeness
    exact List.mem_append_right _ (List.mem_flatMap.mpr ⟨b, hb, hm⟩)
  have hne : validate_completeness f ≠ [] := List.ne_nil_of_mem hmem
  refine ⟨hne, ?_, ?_⟩
  · unfold get_state
    rw [if_neg hne]
  · intro i nb u
    rfl

/-- C7 counterexample: a `use_saved_value` block whose target-element name is
the literal placeholder `\x7b\x7bx\x7d\x7d` passes completeness validation
with no errors, and the flow is RUNNABLE — element names of this block type
escape the prohibition because `use_saved_value` is absent from the
`element_blocks` tuple. -/
theorem c7_counterexample :
    validate_completeness
        (FlowGraph.mk ("")
          ("u1")
          [Block.mk ("u1") none
            (.useSavedValue (some { role := "textbox", name := "\x7b\x7bx\x7d\x7d" })
              (some { key := "k" }))]) = []
    ∧ contains_variable (some ("\x7b\x7bx\x7d\x7d")) = true
    ∧ get_state
        (FlowGraph.mk ("")
          ("u1")
          [Block.mk ("u1") none
            (.useSavedValue (some { role := "textbox", name := "\x7b\x7bx\x7d\x7d" })
              (some { key := "k" }))]) = .runnable :=
  ⟨rfl, rfl, rfl⟩

/-- C7 witness: the amended theorem applied to a flow with a single
`if_condition` block whose URL fragment carries a placeholder. -/
theorem c7_witness :
    get_state
      (FlowGraph.mk ("")
        ("i1")
        [Block.mk ("i1") none
          (.ifCondition { kind := .urlContains, expectedFragment := some ("\x7b\x7bx\x7d\x7d") } [] [])])
      = .draft :=
  (c7_placeholder_prohibition
    (FlowGraph.mk ("")
      ("i1")
      [Block.mk ("i1") none
        (.ifCondition { kind := .urlContains, expectedFragment := some ("\x7b\x7bx\x7d\x7d") } [] [])])
    (Block.mk ("i1") none
      (.ifCondition { kind := .urlContains, expectedFragment := some ("\x7b\x7bx\x7d\x7d") } [] []))
    (by simp)
    (Or.inl ⟨{ kind := .urlContains, expectedFragment := some ("\x7b\x7bx\x7d\x7d") },
      rfl, by decide⟩)).2.1

/-! ## Claim C8 -/

/-- C8 amended: the retry policy is keyed on the (lower-cased) confidence
string: "high" ⇒ 2 attempts at 0.5 s, "low" ⇒ 5 attempts at 2.0 s, and any
other value (including "declared") ⇒ the balanced 3 attempts at 1.0 s; an
ElementRef built without an explicit confidence receives the pydantic model
default "high" — not medium — and therefore the fast-fail policy; a
positive explicit timeout overrides the attempt count with
`max 1 ⌊timeout / spacing⌋` at the unchanged policy spacing. -/
theorem c8_confidence_retry_policy (ref : ElementRef) (t : Nat) :
    (ref.confidence ≠ "" → lowerStr ref.confidence = "high" →
      resolveRetryParams ref none = (2, 500))
    ∧ (ref.confidence ≠ "" → lowerStr ref.confidence = "low" →
      resolveRetryParams ref none = (5, 2000))
    ∧ (ref.confidence ≠ "" → lowerStr ref.confidence = "declared" →
      resolveRetryParams ref none = (3, 1000))
    ∧ (∀ role name, ({ role := role, name := name } : ElementRef).confidence = "high")
    ∧ (0 < t → resolveRetryParams ref (some t)
        = (max 1 (t / (resolveRetryParams ref none).2),
           (resolveRetryParams ref none).2)) := by
  refine ⟨?_, ?_, ?_, ?_, ?_⟩
  · intro hne hl
    simp [resolveRetryParams, effectiveConfidence, hne, hl, retryParams]
  · intro hne hl
    simp [resolveRetryParams, effectiveConfidence, hne, hl, retryParams]
  · intro hne hl
    simp [resolveRetryParams, effectiveConfidence, hne, hl, retryParams]
  · intro role name
    rfl
  · intro ht
    unfold resolveRetryParams retryParams
    simp [ht]

/-- C8 counterexample: an ElementRef whose confidence is not explicitly
declared defaults to "high" and resolves with the fast-fail policy of 2
attempts at 0.5 s — not the claimed balanced 3 attempts at 1.0 s. -/
theorem c8_counterexample :
    ({ role := "button", name := "Submit" } : ElementRef).confidence = "high"
    ∧ resolveRetryParams ({ role := "button", name := "Submit" } : ElementRef) none = (2, 500)
    ∧ ((2, 500) : Nat × Nat) ≠ (3, 1000) :=
  ⟨rfl, by decide, by decide⟩

/-- C8 witness: the amended theorem applied to a low-confidence reference and
to an explicit 2-second wait on a default (high) reference, which converts
into `max 1 (2000 / 500) = 4` attempts at the 0.5 s spacing. -/
theorem c8_witness :
    resolveRetryParams { role := "button", name := "Submit", confidence := "low" } none
      = (5, 2000)
    ∧ resolveRetryParams ({ role := "button", name := "Submit" } : ElementRef) (some 2000)
      = (4, 500) := by
  constructor
  · exact (c8_confidence_retry_policy
      { role := "button", name := "Submit", confidence := "low" } 1).2.1
      (by decide) (by decide)
  · have h := (c8_confidence_retry_policy ({ role := "button", name := "Submit" } : ElementRef) 2000).2.2.2.2
      (by decide)
    rw [h]
    decide

/-! ## Claim C9 -/

/-- C9: for every interaction intent (click, enter text, select option,
upload file, submit form, save text), when the engine reports capabilities
that lack the required one, `_check_capabilities` raises the
`IntentCapabilityMismatchError` — a USER-owned, CERTAIN failure whose class
is distinct from element-not-found; in particular `enter_text` requires the
"editable" capability, so a button handle reporting
`editable = false` fails this way. -/
theorem c9_capability_mismatch (caps : List (String × Bool))
    (intent : InteractionIntent)
    (h : (List.lookup (requiredCapability intent) caps).getD false = false) :
    checkCapabilities (.ok caps) (requiredCapability intent)
      = some intentCapabilityMismatchError
    ∧ intentCapabilityMismatchError.owner = .USER
    ∧ intentCapabilityMismatchError.determinism = .CERTAIN
    ∧ intentCapabilityMismatchError.kind ≠ elementNotFoundInDOMError.kind
    ∧ requiredCapability .enterText = "editable" := by
  refine ⟨?_, rfl, rfl, by decide, rfl⟩
  unfold checkCapabilities
  simp [h]

/-- C9 witness: the theorem applied to a button-like capability report
(`clickable` but not `editable`) under the `enter_text` intent. -/
theorem c9_witness :
    checkCapabilities (.ok [("clickable", true), ("editable", false)])
      (requiredCapability .enterText) = some intentCapabilityMismatchError :=
  (c9_capability_mismatch [("clickable", true), ("editable", false)]
    .enterText (by decide)).1

/-! ## Claim C10 -/

/-- C10 amended: condition evaluation never lets a browser-engine error
escape: the result is never a propagated `browserError`. An
`element_not_visible` condition whose element fails to resolve (or whose
visibility check errors) evaluates to `true` — not-found counts as not
visible — while for the other engine-touching kinds
(`element_visible`, `text_match`, `page_title_equals`, `url_contains`) a
browser-engine error during evaluation makes the condition evaluate to
`false`. (The original claim's "for every condition kind … false" fails at
`element_not_visible`; see the counterexample.) -/
theorem c10_condition_error_containment (o : ConditionOracle)
    (saved : List (String × String)) (c : Condition) :
    (evaluateCondition o saved c ≠ .error .browserError)
    ∧ (∀ el, c.kind = .elementNotVisible → c.element = some el →
        o.resolveElem el = .error () → evaluateCondition o saved c = .ok true)
    ∧ (∀ el, c.kind = .elementVisible → c.element = some el →
        o.resolveElem el = .error () → evaluateCondition o saved c = .ok false)
    ∧ (∀ el, c.kind = .textMatch → c.element = some el →
        o.resolveElem el = .error () → evaluateCondition o saved c = .ok false)
    ∧ (∀ t, c.kind = .pageTitleEquals → c.expectedTitle = some t → t ≠ "" →
        o.pageTitle = .error () → evaluateCondition o saved c = .ok false)
    ∧ (∀ fr, c.kind = .urlContains → c.expectedFragment = some fr → fr ≠ "" →
        o.currentUrl = .error () → evaluateCondition o saved c = .ok false) := by
  refine ⟨?_, ?_, ?_, ?_, ?_, ?_⟩
  · intro hcontra
    unfold evaluateCondition at hcontra
    rcases c with ⟨kind, element, et, ef, vr, ext, mm, v⟩
    cases kind <;> dsimp only at hcontra <;> (repeat' split at hcontra) <;>
      simp_all
  · intro el hk hel hres
    simp [evaluateCondition, hk, hel, hres]
  · intro el hk hel hres
    simp [evaluateCondition, hk, hel, hres]
  · intro el hk hel hres
    simp [evaluateCondition, hk, hel, hres]
  · intro t hk ht htne hres
    simp [evaluateCondition, hk, ht, htne, hres]
  · intro fr hk hf hfne hres
    simp [evaluateCondition, hk, hf, hfne, hres]

/-- C10 counterexample: an `element_not_visible` condition whose element
resolution raises a browser-engine error evaluates to `true`, not `false` —
refuting "for every condition kind, a browser-engine error makes the whole
condition evaluate to false". -/
theorem c10_counterexample :
    evaluateCondition { resolveElem := fun _ => .error () } []
        { kind := .elementNotVisible, element := some ({ role := "button", name := "Modal" } : ElementRef) }
      = .ok true
    ∧ (Except.ok true : Except EvalErr Bool) ≠ .ok false :=
  ⟨rfl, by simp⟩

/-- C10 witness: the amended theorem applied to an `element_visible` condition
over an oracle whose resolution errors — the condition evaluates to
`false`. -/
theorem c10_witness :
    evaluateCondition { resolveElem := fun _ => .error () } []
        { kind := .elementVisible, element := some ({ role := "button", name := "Menu" } : ElementRef) }
      = .ok false :=
  (c10_condition_error_containment { resolveElem := fun _ => .error () } []
    { kind := .elementVisible, element := some ({ role := "button", name := "Menu" } : ElementRef) }).2.2.1
    ({ role := "button", name := "Menu" } : ElementRef) rfl rfl rfl
